import Mathlib

/-!
Verification of the doggo.js client (`src/src/index.ts`).

The file shallowly embeds the `PatClient` class and its two dispatch
primitives, `makeRequest` (fetch-based JSON primitive) and
`makeUploadRequest` (XMLHttpRequest-based binary primitive), together with
every public method of the class.  JavaScript runtime values that can flow
through the client are modelled by `JsValue`; `undefined` and `null` are
distinct constructors, and JS truthiness, nullish coalescing, template
interpolation, property access and `JSON.stringify` are modelled by
executable functions below.  Network effects are modelled by an explicit
outcome value (`FetchOutcome` / `UploadOutcome`) supplied to the dispatch
functions: it carries the status, status text and the JSON-parse result of
the response body, or marks a transport failure.
-/

namespace DoggoJs

/-- A JavaScript runtime value as it can appear in this client:
`undefined`, `null`, booleans, numbers (integral in every payload of this
client), strings and plain objects (insertion-ordered field lists;
`JSON.parse` keeps the last duplicate key, which `lastField` mirrors). -/
inductive JsValue where
  | undef : JsValue
  | null : JsValue
  | bool : Bool → JsValue
  | num : Int → JsValue
  | str : String → JsValue
  | obj : List (String × JsValue) → JsValue

/-- The JS `typeof` operator on the modelled values. -/
def typeofJs : JsValue → String
  | JsValue.undef => "undefined"
  | JsValue.null => "object"
  | JsValue.bool _ => "boolean"
  | JsValue.num _ => "number"
  | JsValue.str _ => "string"
  | JsValue.obj _ => "object"

/-- JS `String(v)` coercion for the modelled values (used by
`new Error(message)` when a non-string reaches it). -/
def JsValue.toStr : JsValue → String
  | JsValue.undef => "undefined"
  | JsValue.null => "null"
  | JsValue.bool b => if b then "true" else "false"
  | JsValue.num n => toString n
  | JsValue.str s => s
  | JsValue.obj _ => "[object Object]"

/-- JS truthiness of a modelled value. -/
def jsTruthy : JsValue → Bool
  | JsValue.undef => false
  | JsValue.null => false
  | JsValue.bool b => b
  | JsValue.num n => decide (n ≠ 0)
  | JsValue.str s => decide (s ≠ "")
  | JsValue.obj _ => true

/-- JS nullish coalescing `a ?? b`: `b` only when `a` is `undefined` or
`null`; in particular the empty string is kept. -/
def nullishCoalesce (a b : JsValue) : JsValue :=
  match a with
  | JsValue.undef => b
  | JsValue.null => b
  | _ => a

/-- JS logical or `a || b`: `b` whenever `a` is falsy. -/
def jsOr (a b : JsValue) : JsValue :=
  if jsTruthy a then a else b

/-- Value of field `k` in an insertion-ordered field list; the last
occurrence wins, as in an object produced by `JSON.parse`. -/
def lastField (fields : List (String × JsValue)) (k : String) : Option JsValue :=
  fields.foldl (fun acc p => if p.1 = k then some p.2 else acc) none

/-- JS property access `v[k]`: throws (`.error`) on `undefined`/`null`
receivers, yields `undefined` for absent fields and on the remaining
primitives (prototype properties are irrelevant to this client). -/
def jsGetField : JsValue → String → Except Unit JsValue
  | JsValue.undef, _ => Except.error ()
  | JsValue.null, _ => Except.error ()
  | JsValue.obj fields, k => Except.ok ((lastField fields k).getD JsValue.undef)
  | _, _ => Except.ok JsValue.undef

/-- One character of a JSON string literal, escaped as the platform
`JSON.stringify` does for the quote and the backslash (the control-character
escapes never arise in this client's payloads). -/
def jsonEscapeChar (ch : Char) : String :=
  if ch = Char.ofNat 34 then "\\\""
  else if ch = Char.ofNat 92 then "\\\\"
  else String.singleton ch

/-- A JSON string literal for `s`. -/
def jsonQuote (s : String) : String :=
  "\"" ++ String.join (s.toList.map jsonEscapeChar) ++ "\""

mutual

/-- The platform `JSON.stringify` on the modelled values: `none` is the
serialized-undefined value (`JSON.stringify(undefined) === undefined`);
fields whose value serializes to `undefined` are dropped from objects. -/
def jsonStringify : JsValue → Option String
  | JsValue.undef => none
  | JsValue.null => some "null"
  | JsValue.bool b => some (if b then "true" else "false")
  | JsValue.num n => some (toString n)
  | JsValue.str s => some (jsonQuote s)
  | JsValue.obj fields =>
      some ("\x7b" ++ String.intercalate "," (jsonStringifyFields fields) ++ "\x7d")

/-- The serialized members of an object, in order, skipping fields whose
value stringifies to `undefined`. -/
def jsonStringifyFields : List (String × JsValue) → List String
  | [] => []
  | (k, v) :: rest =>
      (match jsonStringify v with
       | some s => [jsonQuote k ++ ":" ++ s]
       | none => []) ++ jsonStringifyFields rest

end

/-- Serialization of a top-level record (the `body` argument of
`makeRequest` has type `Record<string, unknown>`, so `JSON.stringify`
always yields a string for a supplied body). -/
def stringifyRecord (fields : List (String × JsValue)) : String :=
  "\x7b" ++ String.intercalate "," (jsonStringifyFields fields) ++ "\x7d"

/-- Characters `encodeURIComponent` leaves unescaped. -/
def isUriUnreserved (ch : Char) : Bool :=
  ch.isAlphanum || "-_.!~*()".contains ch || ch = Char.ofNat 39

/-- An uppercase hexadecimal digit. -/
def uriHexDigit (n : Nat) : Char :=
  if n < 10 then Char.ofNat (48 + n) else Char.ofNat (55 + n)

/-- Percent-encoding of one character from its UTF-8 bytes. -/
def percentEncodeChar (ch : Char) : String :=
  String.join ((String.singleton ch).toUTF8.toList.map (fun b =>
    "%" ++ String.singleton (uriHexDigit (b.toNat / 16))
        ++ String.singleton (uriHexDigit (b.toNat % 16))))

/-- The platform `encodeURIComponent`. -/
def encodeURIComponent (s : String) : String :=
  String.join (s.toList.map (fun ch =>
    if isUriUnreserved ch then String.singleton ch else percentEncodeChar ch))

/-- The client state: a base endpoint fixed by the constructor and an
optional bearer token (`none` models the `undefined` of an untouched
`token?: string` field). -/
structure PatClient where
  baseUrl : String
  token : Option String

/-- `constructor(baseUrl?: string) { this.baseUrl = baseUrl ?? 'https://pat.doggo.ninja' }`;
the token field starts undefined. -/
def PatClient.make (baseUrl : Option String) : PatClient :=
  { baseUrl := baseUrl.getD "https://pat.doggo.ninja", token := none }

/-- `authenticate(token?: string) { this.token = token }`. -/
def authenticate (c : PatClient) (token : Option String) : PatClient :=
  { c with token := token }

/-- JS truthiness of a `string | null | undefined` value
(`if (this.token)`, `if (value)`, `if (parentId)`, `if (file.name)`). -/
def strTruthy : Option String → Bool
  | none => false
  | some s => decide (s ≠ "")

/-- Template-literal interpolation of a possibly-undefined string, as in
`` `Bearer ${this.token}` ``: `undefined` prints as "undefined". -/
def jsTemplateStr : Option String → String
  | none => "undefined"
  | some t => t

/-- `URLSearchParams.set`: replace the value at the first occurrence of the
key, dropping later occurrences, or append the pair when absent. -/
def setParam (ps : List (String × String)) (k v : String) : List (String × String) :=
  match ps with
  | [] => [(k, v)]
  | p :: rest =>
      if p.1 = k then (k, v) :: rest.filter (fun q => decide (q.1 ≠ k))
      else p :: setParam rest k v

/-- The query loop of `makeRequest`:
`for (const [key, value] of Object.entries(query)) if (value) url.searchParams.set(key, value)`.
A value is skipped when it is `null` (`none`) or the empty string. -/
def queryFold (acc : List (String × String)) :
    List (String × Option String) → List (String × String)
  | [] => acc
  | (k, v) :: rest =>
      queryFold
        (match v with
         | none => acc
         | some s => if s = "" then acc else setParam acc k s)
        rest

/-- The search params transmitted for a query record.  The URL string
`baseUrl.concat(path)` contains no query part for any path of this client,
so the params start empty. -/
def buildQuery (query : List (String × Option String)) : List (String × String) :=
  queryFold [] query

/-- The HTTP request dispatched by `makeRequest`, as handed to `fetch`:
`bodyText = none` is the serialized-undefined body value
(`body: JSON.stringify(body)` with `body` undefined). -/
structure HttpRequest where
  method : String
  urlBase : String
  queryParams : List (String × String)
  headers : List (String × String)
  bodyText : Option String

/-- Request construction of `makeRequest` (`index.ts` lines 457-478):
`Accept` always; `Authorization: Bearer <token>` when `this.token` is
truthy; `Content-Type: application/json` when a body record was supplied;
query params from the truthiness-filtering loop; body `JSON.stringify`ed. -/
def makeRequestSent (c : PatClient) (method path : String)
    (query : List (String × Option String))
    (body : Option (List (String × JsValue))) : HttpRequest :=
  { method := method
    urlBase := c.baseUrl ++ path
    queryParams := buildQuery query
    headers :=
      [("Accept", "application/json")]
        ++ (if strTruthy c.token
            then [("Authorization", "Bearer " ++ jsTemplateStr c.token)] else [])
        ++ (if body.isSome then [("Content-Type", "application/json")] else [])
    bodyText := body.map stringifyRecord }

/-- What the environment did with a fetch call: the transport rejected, or
a response arrived with a status, a status text (always a string in the
fetch API) and the JSON-parse result of its body (`none` when the body is
not valid JSON, so `res.json()` rejects). -/
inductive FetchOutcome where
  | networkFailure : FetchOutcome
  | response : Nat → String → Option JsValue → FetchOutcome

/-- `Response.ok`: status in the 200-299 range. -/
def resOk (status : Nat) : Bool :=
  decide (200 ≤ status) && decide (status < 300)

/-- How a dispatch can reject. -/
inductive DispatchError where
  | thrown : String → DispatchError
  | jsonParseError : DispatchError
  | networkError : DispatchError
  | typeErrorOnDestructure : DispatchError

/-- The error message built for a non-ok response (`index.ts` 480-489):
`try { message = (await res.json()).message } catch { message = res.statusText }`
then `message = message ?? 'No error info'`.  The catch also receives the
TypeError of a `.message` access on a nullish parse result. -/
def errorMessageOf (bodyParse : Option JsValue) (statusText : String) : String :=
  let m : JsValue :=
    match bodyParse with
    | none => JsValue.str statusText
    | some v =>
        match jsGetField v "message" with
        | Except.error _ => JsValue.str statusText
        | Except.ok m => m
  (nullishCoalesce m (JsValue.str "No error info")).toStr

/-- Response processing of `makeRequest`: a rejected fetch rejects the
call; a non-ok response throws `new Error(message)`; an ok response
resolves with its parsed JSON body, or rejects when `res.json()` fails. -/
def makeRequestRunE (c : PatClient) (method path : String)
    (query : List (String × Option String))
    (body : Option (List (String × JsValue)))
    (outcome : FetchOutcome) : Except DispatchError JsValue :=
  match outcome with
  | FetchOutcome.networkFailure => Except.error DispatchError.networkError
  | FetchOutcome.response status statusText bodyParse =>
      if resOk status then
        match bodyParse with
        | some v => Except.ok v
        | none => Except.error DispatchError.jsonParseError
      else
        Except.error (DispatchError.thrown (errorMessageOf bodyParse statusText))

/-- One `makeRequest` call: the request dispatched and the settled result.
The underscore-free client argument is read, never written. -/
def makeRequestCall (c : PatClient) (method path : String)
    (query : List (String × Option String))
    (body : Option (List (String × JsValue)))
    (outcome : FetchOutcome) : HttpRequest × Except DispatchError JsValue :=
  (makeRequestSent c method path query body,
   makeRequestRunE c method path query body outcome)

/-- `makeRequest` as a state transformer on the client: the method body
contains no assignment to `this.baseUrl` or `this.token`, so the resulting
client state is the receiver itself. -/
def makeRequestSt (c : PatClient) (method path : String)
    (query : List (String × Option String))
    (body : Option (List (String × JsValue)))
    (outcome : FetchOutcome) :
    PatClient × HttpRequest × Except DispatchError JsValue :=
  (c, makeRequestSent c method path query body,
      makeRequestRunE c method path query body outcome)

/-- A URL as assembled by `upload`/`replace`: the base text and the search
params set on it. -/
structure Url where
  base : String
  params : List (String × String)

/-- The `globalThis.File` data this client reads: `file.name` and
`file.type` (the binary payload itself is opaque to every claim). -/
structure FileBlob where
  name : String
  fileType : String

/-- The JS environment of a call: whether the global `window` is defined
(browser context). -/
structure JsEnv where
  windowDefined : Bool

/-- The guard condition of `makeUploadRequest` (`index.ts` 417):
`typeof 'window' === 'undefined'`.  The operand is the string literal
`'window'`, not the global `window`, so the environment is never
consulted. -/
def uploadGuardTriggers (env : JsEnv) : Bool :=
  decide (typeofJs (JsValue.str "window") = "undefined")

/-- The XHR request dispatched by `makeUploadRequest` (`index.ts`
450-453): `Authorization: Bearer ${this.token}` set unconditionally, then
`Content-Type: application/octet-stream`, body the file. -/
structure UploadHttpRequest where
  method : String
  url : Url
  headers : List (String × String)
  body : FileBlob

/-- Request construction of `makeUploadRequest`. -/
def makeUploadRequestSent (c : PatClient) (method : String) (url : Url)
    (file : FileBlob) : UploadHttpRequest :=
  { method := method
    url := url
    headers :=
      [("Authorization", "Bearer " ++ jsTemplateStr c.token),
       ("Content-Type", "application/octet-stream")]
    body := file }

/-- What the environment did with an XHR upload: the error event fired, or
the request completed (readyState 4) with a status, status text, and the
JSON-parse result of `xhr.responseText`. -/
inductive UploadOutcome where
  | networkFailure : UploadOutcome
  | response : Nat → String → Option JsValue → UploadOutcome

/-- The readystatechange handler of `makeUploadRequest` (`index.ts`
428-444): parse the body; 2xx resolves with the JSON; otherwise reject
with `new Error(json.message || xhr.statusText || 'No error info')`; any
throw inside the try (parse failure, or `.message` on a nullish value)
rejects with 'Unable to parse json'. -/
def processUploadResponse (status : Nat) (statusText : String)
    (bodyParse : Option JsValue) : Except DispatchError JsValue :=
  match bodyParse with
  | none => Except.error (DispatchError.thrown "Unable to parse json")
  | some json =>
      if decide (200 ≤ status) && decide (status < 300) then Except.ok json
      else
        match jsGetField json "message" with
        | Except.error _ => Except.error (DispatchError.thrown "Unable to parse json")
        | Except.ok m =>
            Except.error (DispatchError.thrown
              (JsValue.toStr (jsOr (jsOr m (JsValue.str statusText))
                (JsValue.str "No error info"))))

/-- One `makeUploadRequest` call: the dead capability guard, then the XHR
exchange.  The error event rejects with 'An unexpected error occurred'. -/
def makeUploadRequestRun (c : PatClient) (env : JsEnv) (method : String)
    (url : Url) (file : FileBlob) (outcome : UploadOutcome) :
    Except DispatchError JsValue :=
  if uploadGuardTriggers env then
    Except.error (DispatchError.thrown "File uploads only supported in browser")
  else
    match outcome with
    | UploadOutcome.networkFailure =>
        Except.error (DispatchError.thrown "An unexpected error occurred")
    | UploadOutcome.response status statusText bodyParse =>
        processUploadResponse status statusText bodyParse

/-- `makeUploadRequest` as a state transformer: its body never assigns to
`this.baseUrl` or `this.token`. -/
def makeUploadRequestSt (c : PatClient) (env : JsEnv) (method : String)
    (url : Url) (file : FileBlob) (outcome : UploadOutcome) :
    PatClient × Except DispatchError JsValue :=
  (c, makeUploadRequestRun c env method url file outcome)

/-- `undefined` / present conversion for an optional argument passed into
a body record by shorthand (`{ shortName, password }`). -/
def jsOfOptStr : Option String → JsValue
  | none => JsValue.undef
  | some s => JsValue.str s

/-- `string | null` conversion for a nullable argument. -/
def jsOfNullableStr : Option String → JsValue
  | none => JsValue.null
  | some s => JsValue.str s

/-- `boolean | undefined` conversion for the optional `copy` argument. -/
def jsOfOptBool : Option Bool → JsValue
  | none => JsValue.undef
  | some b => JsValue.bool b

/-- The error component of a settled dispatch, `none` on success. -/
def errOf {α : Type} : Except DispatchError α → Option DispatchError
  | Except.ok _ => none
  | Except.error e => some e

/-- Destructuring `const { k } = await this.makeRequest(...)`: a rejected
dispatch propagates; a nullish resolution throws a TypeError. -/
def destructureField (r : Except DispatchError JsValue) (k : String) :
    Except DispatchError JsValue :=
  match r with
  | Except.error e => Except.error e
  | Except.ok v =>
      match jsGetField v k with
      | Except.ok m => Except.ok m
      | Except.error _ => Except.error DispatchError.typeErrorOnDestructure

/-- `details` of `moveFile`: a field is `some v` when the key is present
(with any value, including explicit `undefined` or `null`), `none` when
the key is absent. -/
structure MoveFileDetails where
  originalName : Option JsValue
  parentId : Option JsValue

/-- `details` of `moveFolder`, with the same presence convention. -/
structure MoveFolderDetails where
  name : Option JsValue
  parentId : Option JsValue

/-- `details` of `updateFileSharing` (both fields required). -/
structure SharingDetails where
  privatesAt : JsValue
  password : JsValue

/-- Object spread of a presence-tracked optional field. -/
def detailEntry (k : String) (v : Option JsValue) : List (String × JsValue) :=
  match v with
  | some x => [(k, x)]
  | none => []

/-- The body record of `moveFile` (`index.ts` 253-263):
`{ shortName, ...details, forceMove: 'parentId' in details, copy }`. -/
def moveFileBody (shortName : String) (d : MoveFileDetails)
    (copy : Option Bool) : List (String × JsValue) :=
  [("shortName", JsValue.str shortName)]
    ++ detailEntry "originalName" d.originalName
    ++ detailEntry "parentId" d.parentId
    ++ [("forceMove", JsValue.bool d.parentId.isSome),
        ("copy", jsOfOptBool copy)]

/-- The body record of `moveFolder` (`index.ts` 307-316):
`{ id, ...details, forceMove: 'parentId' in details }`. -/
def moveFolderBody (fid : String) (d : MoveFolderDetails) :
    List (String × JsValue) :=
  [("id", JsValue.str fid)]
    ++ detailEntry "name" d.name
    ++ detailEntry "parentId" d.parentId
    ++ [("forceMove", JsValue.bool d.parentId.isSome)]

/-- The query params `upload` sets on `${baseUrl}/v1/upload`. -/
def uploadUrl (c : PatClient) (file : FileBlob) (parentId : Option String) : Url :=
  let ps1 := if strTruthy parentId then setParam [] "parentId" (jsTemplateStr parentId) else []
  let ps2 := setParam ps1 "mimeType" file.fileType
  let ps3 := if decide (file.name ≠ "") then setParam ps2 "originalName" file.name else ps2
  { base := c.baseUrl ++ "/v1/upload", params := ps3 }

/-- The query params `replace` sets on
`${baseUrl}/v1/file/${encodeURIComponent(shortName)}`. -/
def replaceUrl (c : PatClient) (shortName : String) (file : FileBlob) : Url :=
  let ps1 := setParam [] "mimeType" file.fileType
  let ps2 := if decide (file.name ≠ "") then setParam ps1 "originalName" file.name else ps1
  { base := c.baseUrl ++ "/v1/file/" ++ encodeURIComponent shortName, params := ps2 }

/-- `files(parentId)`. -/
def files (c : PatClient) (parentId : Option String) (outcome : FetchOutcome) :
    HttpRequest × Except DispatchError JsValue :=
  makeRequestCall c "get" "/v1/files" [("parentId", parentId)] none outcome

/-- `recentFiles(count)`. -/
def recentFiles (c : PatClient) (count : Int) (outcome : FetchOutcome) :
    HttpRequest × Except DispatchError JsValue :=
  makeRequestCall c "get" "/v1/files" [("count", some (toString count))] none outcome

/-- `upload(file, parentId, onProgress?)`; the progress callback has no
effect on the settled value. -/
def upload (c : PatClient) (env : JsEnv) (file : FileBlob)
    (parentId : Option String) (outcome : UploadOutcome) :
    UploadHttpRequest × Except DispatchError JsValue :=
  (makeUploadRequestSent c "post" (uploadUrl c file parentId) file,
   makeUploadRequestRun c env "post" (uploadUrl c file parentId) file outcome)

/-- `replace(shortName, file, onProgress?)`. -/
def replace (c : PatClient) (env : JsEnv) (shortName : String)
    (file : FileBlob) (outcome : UploadOutcome) :
    UploadHttpRequest × Except DispatchError JsValue :=
  (makeUploadRequestSent c "put" (replaceUrl c shortName file) file,
   makeUploadRequestRun c env "put" (replaceUrl c shortName file) file outcome)

/-- `getDownloadToken(shortName, password?)`. -/
def getDownloadToken (c : PatClient) (shortName : String)
    (password : Option String) (outcome : FetchOutcome) :
    HttpRequest × Except DispatchError JsValue :=
  let r := makeRequestCall c "post" "/v1/files/token" []
    (some [("shortName", JsValue.str shortName), ("password", jsOfOptStr password)])
    outcome
  (r.1, destructureField r.2 "downloadToken")

/-- `updateFileSharing(shortName, isPrivate, details)`. -/
def updateFileSharing (c : PatClient) (shortName : String) (isPrivate : Bool)
    (d : SharingDetails) (outcome : FetchOutcome) :
    HttpRequest × Except DispatchError JsValue :=
  makeRequestCall c "post" "/v1/files/sharing" []
    (some [("shortName", JsValue.str shortName), ("private", JsValue.bool isPrivate),
           ("privatesAt", d.privatesAt), ("password", d.password)])
    outcome

/-- `moveFile(shortName, details, copy?)`. -/
def moveFile (c : PatClient) (shortName : String) (d : MoveFileDetails)
    (copy : Option Bool) (outcome : FetchOutcome) :
    HttpRequest × Except DispatchError JsValue :=
  makeRequestCall c "post" "/v1/files/move" [] (some (moveFileBody shortName d copy)) outcome

/-- `getFile(shortName)`. -/
def getFile (c : PatClient) (shortName : String) (outcome : FetchOutcome) :
    HttpRequest × Except DispatchError JsValue :=
  makeRequestCall c "get" ("/v1/file/" ++ encodeURIComponent shortName) [] none outcome

/-- `deleteFile(shortName)`. -/
def deleteFile (c : PatClient) (shortName : String) (outcome : FetchOutcome) :
    HttpRequest × Except DispatchError JsValue :=
  makeRequestCall c "delete" ("/v1/file/" ++ encodeURIComponent shortName) [] none outcome

/-- `deleteFolder(id)`. -/
def deleteFolder (c : PatClient) (fid : String) (outcome : FetchOutcome) :
    HttpRequest × Except DispatchError JsValue :=
  makeRequestCall c "delete" ("/v1/folder/" ++ encodeURIComponent fid) [] none outcome

/-- `folders(parentId)`. -/
def folders (c : PatClient) (parentId : Option String) (outcome : FetchOutcome) :
    HttpRequest × Except DispatchError JsValue :=
  makeRequestCall c "get" "/v1/folders" [("parentId", parentId)] none outcome

/-- `createFolder(name, parentId)`. -/
def createFolder (c : PatClient) (name : String) (parentId : Option String)
    (outcome : FetchOutcome) : HttpRequest × Except DispatchError JsValue :=
  makeRequestCall c "post" "/v1/folders/create" []
    (some [("name", JsValue.str name), ("parentId", jsOfNullableStr parentId)]) outcome

/-- `moveFolder(id, details)`. -/
def moveFolder (c : PatClient) (fid : String) (d : MoveFolderDetails)
    (outcome : FetchOutcome) : HttpRequest × Except DispatchError JsValue :=
  makeRequestCall c "post" "/v1/folders/move" [] (some (moveFolderBody fid d)) outcome

/-- `getFolder(id)`. -/
def getFolder (c : PatClient) (fid : String) (outcome : FetchOutcome) :
    HttpRequest × Except DispatchError JsValue :=
  makeRequestCall c "get" ("/v1/folder/" ++ encodeURIComponent fid) [] none outcome

/-- `checkAuth()` (`index.ts` 323-330): try the dispatch, resolve `true`
on success, `false` on any rejection. -/
def checkAuth (c : PatClient) (outcome : FetchOutcome) : Bool :=
  match makeRequestRunE c "get" "/v1/auth/check" [] none outcome with
  | Except.ok _ => true
  | Except.error _ => false

/-- `login(username, password)`: on success reads `sessionToken` and
`expiration` off the response (throwing on a nullish response) and wraps
the expiration in `new Date`, modelled as a tagged object holding the
constructor argument. -/
def login (c : PatClient) (username password : String) (outcome : FetchOutcome) :
    HttpRequest × Except DispatchError JsValue :=
  let r := makeRequestCall c "post" "/v1/auth/login" []
    (some [("name", JsValue.str username), ("password", JsValue.str password)]) outcome
  (r.1,
   match r.2 with
   | Except.error e => Except.error e
   | Except.ok v =>
       match jsGetField v "sessionToken", jsGetField v "expiration" with
       | Except.ok st, Except.ok exp =>
           Except.ok (JsValue.obj
             [("sessionToken", st), ("expiration", JsValue.obj [("dateValue", exp)])])
       | _, _ => Except.error DispatchError.typeErrorOnDestructure)

/-- `resetPassword(nameOrEmail?)`. -/
def resetPassword (c : PatClient) (nameOrEmail : Option String)
    (outcome : FetchOutcome) : HttpRequest × Except DispatchError JsValue :=
  makeRequestCall c "post" "/v1/auth/reset" []
    (some [("nameOrEmail", jsOfOptStr nameOrEmail)]) outcome

/-- `completeResetPassword(resetToken, newPassword, regenerateAccessToken)`;
resolves with undefined. -/
def completeResetPassword (c : PatClient) (resetToken newPassword : String)
    (regen : Bool) (outcome : FetchOutcome) :
    HttpRequest × Except DispatchError JsValue :=
  let r := makeRequestCall c "post" "/v1/auth/reset/complete" []
    (some [("resetToken", JsValue.str resetToken),
           ("newPassword", JsValue.str newPassword),
           ("regenerateAccessToken", JsValue.bool regen)]) outcome
  (r.1, r.2.map (fun _ => JsValue.undef))

/-- `invalidateSession()`; resolves with undefined. -/
def invalidateSession (c : PatClient) (outcome : FetchOutcome) :
    HttpRequest × Except DispatchError JsValue :=
  let r := makeRequestCall c "get" "/v1/auth/invalidate" [] none outcome
  (r.1, r.2.map (fun _ => JsValue.undef))

/-- `regenerateAccessToken()`: destructures `newToken` off the response. -/
def regenerateAccessToken (c : PatClient) (outcome : FetchOutcome) :
    HttpRequest × Except DispatchError JsValue :=
  let r := makeRequestCall c "get" "/v1/auth/regenerate" [] none outcome
  (r.1, destructureField r.2 "newToken")

/-- `me()`. -/
def me (c : PatClient) (outcome : FetchOutcome) :
    HttpRequest × Except DispatchError JsValue :=
  makeRequestCall c "get" "/v1/me" [] none outcome

/-- `setDomain(domain)`. -/
def setDomain (c : PatClient) (domain : String) (outcome : FetchOutcome) :
    HttpRequest × Except DispatchError JsValue :=
  makeRequestCall c "post" "/v1/domain" [] (some [("domain", JsValue.str domain)]) outcome

/-- `adminUsage()`. -/
def adminUsage (c : PatClient) (outcome : FetchOutcome) :
    HttpRequest × Except DispatchError JsValue :=
  makeRequestCall c "get" "/v1/admin/usage" [] none outcome

/-- `makeUser(username, email)`; resolves with undefined. -/
def makeUser (c : PatClient) (username email : String) (outcome : FetchOutcome) :
    HttpRequest × Except DispatchError JsValue :=
  let r := makeRequestCall c "post" "/v1/admin/mkuser" []
    (some [("name", JsValue.str username), ("email", JsValue.str email)]) outcome
  (r.1, r.2.map (fun _ => JsValue.undef))

/-- The truthiness filter the query loop implements, as a single entry
transformation: a `(key, value)` entry survives exactly when the value is
a non-null, non-empty string. -/
def truthyEntry : String × Option String → Option (String × String)
  | (k, v) =>
      match v with
      | none => none
      | some s => if s = "" then none else some (k, s)

theorem errOf_map {α β : Type} (f : α → β) (r : Except DispatchError α) :
    errOf (r.map f) = errOf r := by
  cases r <;> rfl

theorem errOf_destructure_or (r : Except DispatchError JsValue) (k : String) :
    errOf r = none ∨ errOf (destructureField r k) = errOf r := by
  cases r with
  | ok v => exact Or.inl rfl
  | error e => exact Or.inr rfl

theorem strTruthy_none : strTruthy none = false := rfl

theorem strTruthy_empty : strTruthy (some "") = false := rfl

theorem setParam_eq_append (ps : List (String × String)) (k v : String)
    (h : ∀ p ∈ ps, p.1 ≠ k) : setParam ps k v = ps ++ [(k, v)] := by
  induction ps with
  | nil => rfl
  | cons p rest ih =>
      have hp : p.1 ≠ k := h p (List.mem_cons_self p rest)
      simp only [setParam, if_neg hp, List.cons_append]
      rw [ih (fun q hq => h q (List.mem_cons_of_mem p hq))]

theorem queryFold_eq :
    ∀ (query : List (String × Option String)) (acc : List (String × String)),
    (∀ pr ∈ query, ∀ q ∈ acc, q.1 ≠ pr.1) →
    ((query.map Prod.fst).Nodup) →
    queryFold acc query = acc ++ query.filterMap truthyEntry := by
  intro query
  induction query with
  | nil => intro acc _ _; simp [queryFold]
  | cons kv rest ih =>
      intro acc hdisj hnd
      rcases kv with ⟨k, v⟩
      have hnd2 : k ∉ rest.map Prod.fst ∧ (rest.map Prod.fst).Nodup := by
        have h2 := hnd
        rw [List.map_cons, List.nodup_cons] at h2
        exact h2
      cases v with
      | none =>
          have hstep : queryFold acc ((k, none) :: rest) = queryFold acc rest := rfl
          rw [hstep,
            ih acc (fun pr hpr q hq => hdisj pr (List.mem_cons_of_mem _ hpr) q hq) hnd2.2]
          simp [truthyEntry]
      | some s =>
          by_cases hs : s = ""
          · subst hs
            have hstep : queryFold acc ((k, some "") :: rest) = queryFold acc rest := by
              simp [queryFold]
            rw [hstep,
              ih acc (fun pr hpr q hq => hdisj pr (List.mem_cons_of_mem _ hpr) q hq) hnd2.2]
            simp [truthyEntry]
          · have hstep : queryFold acc ((k, some s) :: rest)
                = queryFold (setParam acc k s) rest := by
              simp [queryFold, hs]
            have hset : setParam acc k s = acc ++ [(k, s)] :=
              setParam_eq_append acc k s
                (fun pr hpr => hdisj (k, some s) (List.mem_cons_self _ _) pr hpr)
            have hdisj2 : ∀ pr ∈ rest, ∀ q ∈ acc ++ [(k, s)], q.1 ≠ pr.1 := by
              intro pr hpr q hq
              rcases List.mem_append.mp hq with hq1 | hq2
              · exact hdisj pr (List.mem_cons_of_mem _ hpr) q hq1
              · have hq3 : q = (k, s) := by simpa using hq2
                subst hq3
                intro hcontra
                apply hnd2.1
                have hk : k = pr.1 := hcontra
                rw [hk]
                exact List.mem_map_of_mem Prod.fst hpr
            rw [hstep, hset, ih (acc ++ [(k, s)]) hdisj2 hnd2.2]
            simp [truthyEntry, hs, List.append_assoc]

theorem buildQuery_eq (query : List (String × Option String))
    (hnd : (query.map Prod.fst).Nodup) :
    buildQuery query = query.filterMap truthyEntry := by
  have h := queryFold_eq query [] (by intro pr _ q hq; cases hq) hnd
  simpa [buildQuery] using h

theorem mem_val_unique {α : Type} :
    ∀ (l : List (String × α)), (l.map Prod.fst).Nodup →
    ∀ {k : String} {a b : α}, (k, a) ∈ l → (k, b) ∈ l → a = b := by
  intro l
  induction l with
  | nil =>
      intro _ k a b ha _
      cases ha
  | cons p rest ih =>
      intro hnd k a b ha hb
      have hnd2 : p.1 ∉ rest.map Prod.fst ∧ (rest.map Prod.fst).Nodup := by
        have h2 := hnd
        rw [List.map_cons, List.nodup_cons] at h2
        exact h2
      rcases List.mem_cons.mp ha with ha1 | ha2
      · rcases List.mem_cons.mp hb with hb1 | hb2
        · exact congrArg Prod.snd (ha1.trans hb1.symm)
        · exfalso
          apply hnd2.1
          have hp : p.1 = k := by rw [← ha1]
          rw [hp]
          exact List.mem_map_of_mem Prod.fst hb2
      · rcases List.mem_cons.mp hb with hb1 | hb2
        · exfalso
          apply hnd2.1
          have hp : p.1 = k := by rw [← hb1]
          rw [hp]
          exact List.mem_map_of_mem Prod.fst ha2
        · exact ih hnd2.2 ha2 hb2

theorem filterMap_truthy_keys_sublist (query : List (String × Option String)) :
    List.Sublist ((query.filterMap truthyEntry).map Prod.fst) (query.map Prod.fst) := by
  induction query with
  | nil => simp
  | cons kv rest ih =>
      rcases kv with ⟨k, v⟩
      cases v with
      | none =>
          simp only [List.filterMap_cons, List.map_cons]
          have ht : truthyEntry (k, none) = none := rfl
          rw [ht]
          exact ih.cons k
      | some s =>
          by_cases hs : s = ""
          · subst hs
            simp only [List.filterMap_cons, List.map_cons]
            have ht : truthyEntry (k, some "") = none := rfl
            rw [ht]
            exact ih.cons k
          · simp only [List.filterMap_cons, List.map_cons]
            have ht : truthyEntry (k, some s) = some (k, s) := by
              simp [truthyEntry, hs]
            rw [ht]
            simp only [List.map_cons]
            exact ih.cons₂ k

/-- C1 counterexample: on a freshly constructed client, whose token is
unset, the binary upload primitive still sends an `Authorization` header,
with the value `Bearer undefined` — refuting the claim that no
`Authorization` header is sent when no bearer token has been set. -/
theorem upload_sends_auth_header_without_token :
    (PatClient.make none).token = none
    ∧ ("Authorization", "Bearer undefined") ∈
        (makeUploadRequestSent (PatClient.make none) "post"
          (Url.mk "https://pat.doggo.ninja/v1/upload" [])
          (FileBlob.mk "a.txt" "text/plain")).headers := by
  exact ⟨rfl, by decide⟩

/-- C1 (amended): the JSON primitive sends `Authorization: Bearer <token>`
exactly when a truthy (non-empty) token is set and no `Authorization`
header otherwise; the binary upload primitive always sends an
`Authorization` header, `Bearer <token>` when a token is set and the
literal `Bearer undefined` when none is set. -/
theorem auth_header_behaviour (c : PatClient) (m p : String)
    (q : List (String × Option String)) (b : Option (List (String × JsValue)))
    (mu : String) (u : Url) (f : FileBlob) :
    (makeRequestSent c m p q b).headers.filter (fun h => decide (h.1 = "Authorization"))
      = (if strTruthy c.token
         then [("Authorization", "Bearer " ++ jsTemplateStr c.token)] else [])
    ∧ (makeUploadRequestSent c mu u f).headers
      = [("Authorization", "Bearer " ++ jsTemplateStr c.token),
         ("Content-Type", "application/octet-stream")] := by
  constructor
  · cases ht : strTruthy c.token <;> cases b <;>
      simp [makeRequestSent, ht, List.filter_append]
  · rfl

/-- C2 (code bug): the capability guard of `makeUploadRequest` tests
`typeof 'window'` — the type of the string literal, which is always
`"string"` — so it never fires, even in an environment where the global
`window` is undefined; there the XHR is still opened and sent, and a
transport failure surfaces as the generic network error rather than the
capability error the spec describes. -/
theorem upload_browser_guard_never_fires (env : JsEnv) (c : PatClient)
    (m : String) (u : Url) (f : FileBlob) :
    uploadGuardTriggers env = false
    ∧ makeUploadRequestRun c (JsEnv.mk false) m u f UploadOutcome.networkFailure
        = Except.error (DispatchError.thrown "An unexpected error occurred") := by
  exact ⟨rfl, rfl⟩

/-- C3 counterexample: a 500 response with a non-JSON body and an empty
status text rejects with the empty message, not with `"No error info"` —
the code coalesces with `??`, and the status text, a string, is never
nullish. -/
theorem empty_status_text_error_message :
    makeRequestRunE (PatClient.make none) "get" "/v1/me" [] none
      (FetchOutcome.response 500 "" none)
      = Except.error (DispatchError.thrown "")
    ∧ makeRequestRunE (PatClient.make none) "get" "/v1/me" [] none
        (FetchOutcome.response 500 "" none)
      ≠ Except.error (DispatchError.thrown "No error info") := by
  constructor
  · rfl
  · have hval : makeRequestRunE (PatClient.make none) "get" "/v1/me" [] none
        (FetchOutcome.response 500 "" none)
        = Except.error (DispatchError.thrown "") := rfl
    rw [hval]
    intro h
    injection h with h1
    injection h1 with h2
    exact absurd h2 (by decide)

/-- C3 (amended): for a non-2xx response whose body is not valid JSON, the
JSON primitive rejects with the transport's status text — even when that
status text is empty, in which case the error message is the empty string;
the literal `"No error info"` is produced instead when the body parses as
JSON but carries no `message` field. -/
theorem non_json_error_uses_status_text (c : PatClient) (m p : String)
    (q : List (String × Option String)) (b : Option (List (String × JsValue)))
    (status : Nat) (st : String) (h : resOk status = false) :
    makeRequestRunE c m p q b (FetchOutcome.response status st none)
      = Except.error (DispatchError.thrown st)
    ∧ ∀ fields : List (String × JsValue), lastField fields "message" = none →
        makeRequestRunE c m p q b (FetchOutcome.response status st (some (JsValue.obj fields)))
          = Except.error (DispatchError.thrown "No error info") := by
  constructor
  · simp [makeRequestRunE, h, errorMessageOf, nullishCoalesce, JsValue.toStr]
  · intro fields hf
    simp [makeRequestRunE, h, errorMessageOf, jsGetField, hf, nullishCoalesce,
      JsValue.toStr]

/-- C3 witness: concrete 500 responses, one with a non-JSON body and a
non-empty status text, one with a JSON body lacking a `message` field. -/
theorem non_json_error_uses_status_text_witness :
    resOk 500 = false
    ∧ makeRequestRunE (PatClient.make none) "get" "/v1/me" [] none
        (FetchOutcome.response 500 "Internal Server Error" none)
      = Except.error (DispatchError.thrown "Internal Server Error")
    ∧ makeRequestRunE (PatClient.make none) "get" "/v1/me" [] none
        (FetchOutcome.response 500 "Internal Server Error"
          (some (JsValue.obj [("ok", JsValue.bool false)])))
      = Except.error (DispatchError.thrown "No error info") := by
  refine ⟨rfl, ?_, ?_⟩
  · exact (non_json_error_uses_status_text (PatClient.make none) "get" "/v1/me" [] none
      500 "Internal Server Error" rfl).1
  · exact (non_json_error_uses_status_text (PatClient.make none) "get" "/v1/me" [] none
      500 "Internal Server Error" rfl).2 [("ok", JsValue.bool false)] rfl

/-- C4: in the query record of a JSON-primitive call (whose keys are
distinct, as `Object.entries` of a record yields), a key with a truthy
value appears in the transmitted query params with exactly that value and
no other, and a key with a falsy value — empty string or null — never
appears. -/
theorem query_truthy_sent_falsy_skipped (c : PatClient) (m p : String)
    (b : Option (List (String × JsValue))) (query : List (String × Option String))
    (hnd : (query.map Prod.fst).Nodup) (k v : String) :
    ((k, some v) ∈ query → v ≠ "" →
      ((k, v) ∈ (makeRequestSent c m p query b).queryParams
        ∧ ∀ w, (k, w) ∈ (makeRequestSent c m p query b).queryParams → w = v))
    ∧ ((k, some "") ∈ query →
        k ∉ (makeRequestSent c m p query b).queryParams.map Prod.fst)
    ∧ ((k, none) ∈ query →
        k ∉ (makeRequestSent c m p query b).queryParams.map Prod.fst) := by
  have hq : (makeRequestSent c m p query b).queryParams = query.filterMap truthyEntry := by
    have := buildQuery_eq query hnd
    simpa [makeRequestSent] using this
  refine ⟨?_, ?_, ?_⟩
  · intro hmem hv
    have hk : (k, v) ∈ query.filterMap truthyEntry :=
      List.mem_filterMap.mpr ⟨(k, some v), hmem, by simp [truthyEntry, hv]⟩
    refine ⟨by rw [hq]; exact hk, ?_⟩
    intro w hw
    rw [hq] at hw
    have hnd2 : ((query.filterMap truthyEntry).map Prod.fst).Nodup :=
      List.Nodup.sublist (filterMap_truthy_keys_sublist query) hnd
    exact mem_val_unique _ hnd2 hw hk
  · intro hmem
    rw [hq]
    intro hinmap
    rcases List.mem_map.mp hinmap with ⟨pr, hpr, hfst⟩
    rcases List.mem_filterMap.mp hpr with ⟨entry, hentry, htru⟩
    rcases entry with ⟨k2, v2⟩
    cases v2 with
    | none => simp [truthyEntry] at htru
    | some s =>
        by_cases hs : s = ""
        · subst hs; simp [truthyEntry] at htru
        · simp [truthyEntry, hs] at htru
          have hk2 : k2 = k := by rw [← htru] at hfst; exact hfst
          subst hk2
          have huniq := mem_val_unique query hnd hmem hentry
          have : ("" : String) = s := by injection huniq
          exact hs this.symm
  · intro hmem
    rw [hq]
    intro hinmap
    rcases List.mem_map.mp hinmap with ⟨pr, hpr, hfst⟩
    rcases List.mem_filterMap.mp hpr with ⟨entry, hentry, htru⟩
    rcases entry with ⟨k2, v2⟩
    cases v2 with
    | none => simp [truthyEntry] at htru
    | some s =>
        by_cases hs : s = ""
        · subst hs; simp [truthyEntry] at htru
        · simp [truthyEntry, hs] at htru
          have hk2 : k2 = k := by rw [← htru] at hfst; exact hfst
          subst hk2
          have huniq := mem_val_unique query hnd hmem hentry
          exact Option.noConfusion huniq

/-- C4 witness: a concrete query with a truthy, an empty and a null value. -/
theorem query_truthy_sent_falsy_skipped_witness :
    ("a", "1") ∈ (makeRequestSent (PatClient.make none) "get" "/v1/files"
        [("a", some "1"), ("b", some ""), ("c", none)] none).queryParams
    ∧ "b" ∉ (makeRequestSent (PatClient.make none) "get" "/v1/files"
        [("a", some "1"), ("b", some ""), ("c", none)] none).queryParams.map Prod.fst
    ∧ "c" ∉ (makeRequestSent (PatClient.make none) "get" "/v1/files"
        [("a", some "1"), ("b", some ""), ("c", none)] none).queryParams.map Prod.fst := by
  refine ⟨?_, ?_, ?_⟩
  · exact ((query_truthy_sent_falsy_skipped (PatClient.make none) "get" "/v1/files" none
      [("a", some "1"), ("b", some ""), ("c", none)] (by decide) "a" "1").1
      (by decide) (by decide)).1
  · exact (query_truthy_sent_falsy_skipped (PatClient.make none) "get" "/v1/files" none
      [("a", some "1"), ("b", some ""), ("c", none)] (by decide) "b" "x").2.1 (by decide)
  · exact (query_truthy_sent_falsy_skipped (PatClient.make none) "get" "/v1/files" none
      [("a", some "1"), ("b", some ""), ("c", none)] (by decide) "c" "x").2.2 (by decide)

/-- C5: a non-2xx response whose body parses as JSON with a string
`message` field makes the JSON primitive reject with exactly that field's
value. -/
theorem error_message_from_json_body (c : PatClient) (m p : String)
    (q : List (String × Option String)) (b : Option (List (String × JsValue)))
    (status : Nat) (st : String) (fields : List (String × JsValue)) (s : String)
    (hstatus : resOk status = false)
    (hmsg : lastField fields "message" = some (JsValue.str s)) :
    makeRequestRunE c m p q b
      (FetchOutcome.response status st (some (JsValue.obj fields)))
      = Except.error (DispatchError.thrown s) := by
  simp [makeRequestRunE, hstatus, errorMessageOf, jsGetField, hmsg,
    nullishCoalesce, JsValue.toStr]

/-- C5 witness: a 404 with body `\x7b"message": "not found"\x7d` rejects with
message exactly `"not found"`. -/
theorem error_message_from_json_body_witness :
    resOk 404 = false
    ∧ makeRequestRunE (PatClient.make none) "get" "/v1/file/x" [] none
        (FetchOutcome.response 404 "Not Found"
          (some (JsValue.obj [("message", JsValue.str "not found")])))
      = Except.error (DispatchError.thrown "not found") :=
  ⟨rfl, error_message_from_json_body (PatClient.make none) "get" "/v1/file/x" [] none
    404 "Not Found" [("message", JsValue.str "not found")] "not found" rfl rfl⟩

/-- C6: `checkAuth` resolves `true` exactly when the dispatch to
`GET /v1/auth/check` settles without error and `false` otherwise, never
surfacing the error; every other public method passes its dispatch error
through unchanged (those that post-process a successful response —
`getDownloadToken`, `login`, `regenerateAccessToken` — propagate the error
whenever the dispatch rejected). -/
theorem checkAuth_alone_swallows_errors (c : PatClient) (outcome : FetchOutcome)
    (env : JsEnv) (uo : UploadOutcome) (fb : FileBlob)
    (pid pw2 noe : Option String) (cnt : Int) (cp : Option Bool)
    (sn fid nm un pw em dom rt np : String) (regen isPriv : Bool)
    (sh : SharingDetails) (dF : MoveFileDetails) (dD : MoveFolderDetails) :
    checkAuth c outcome
      = (errOf (makeRequestRunE c "get" "/v1/auth/check" [] none outcome)).isNone
    ∧ errOf (files c pid outcome).2
      = errOf (makeRequestRunE c "get" "/v1/files" [("parentId", pid)] none outcome)
    ∧ errOf (recentFiles c cnt outcome).2
      = errOf (makeRequestRunE c "get" "/v1/files" [("count", some (toString cnt))] none outcome)
    ∧ errOf (upload c env fb pid uo).2
      = errOf (makeUploadRequestRun c env "post" (uploadUrl c fb pid) fb uo)
    ∧ errOf (replace c env sn fb uo).2
      = errOf (makeUploadRequestRun c env "put" (replaceUrl c sn fb) fb uo)
    ∧ (errOf (makeRequestRunE c "post" "/v1/files/token" []
          (some [("shortName", JsValue.str sn), ("password", jsOfOptStr pw2)]) outcome) = none
        ∨ errOf (getDownloadToken c sn pw2 outcome).2
          = errOf (makeRequestRunE c "post" "/v1/files/token" []
              (some [("shortName", JsValue.str sn), ("password", jsOfOptStr pw2)]) outcome))
    ∧ errOf (updateFileSharing c sn isPriv sh outcome).2
      = errOf (makeRequestRunE c "post" "/v1/files/sharing" []
          (some [("shortName", JsValue.str sn), ("private", JsValue.bool isPriv),
                 ("privatesAt", sh.privatesAt), ("password", sh.password)]) outcome)
    ∧ errOf (moveFile c sn dF cp outcome).2
      = errOf (makeRequestRunE c "post" "/v1/files/move" []
          (some (moveFileBody sn dF cp)) outcome)
    ∧ errOf (getFile c sn outcome).2
      = errOf (makeRequestRunE c "get" ("/v1/file/" ++ encodeURIComponent sn) [] none outcome)
    ∧ errOf (deleteFile c sn outcome).2
      = errOf (makeRequestRunE c "delete" ("/v1/file/" ++ encodeURIComponent sn) [] none outcome)
    ∧ errOf (deleteFolder c fid outcome).2
      = errOf (makeRequestRunE c "delete" ("/v1/folder/" ++ encodeURIComponent fid) [] none outcome)
    ∧ errOf (folders c pid outcome).2
      = errOf (makeRequestRunE c "get" "/v1/folders" [("parentId", pid)] none outcome)
    ∧ errOf (createFolder c nm pid outcome).2
      = errOf (makeRequestRunE c "post" "/v1/folders/create" []
          (some [("name", JsValue.str nm), ("parentId", jsOfNullableStr pid)]) outcome)
    ∧ errOf (moveFolder c fid dD outcome).2
      = errOf (makeRequestRunE c "post" "/v1/folders/move" []
          (some (moveFolderBody fid dD)) outcome)
    ∧ errOf (getFolder c fid outcome).2
      = errOf (makeRequestRunE c "get" ("/v1/folder/" ++ encodeURIComponent fid) [] none outcome)
    ∧ (errOf (makeRequestRunE c "post" "/v1/auth/login" []
          (some [("name", JsValue.str un), ("password", JsValue.str pw)]) outcome) = none
        ∨ errOf (login c un pw outcome).2
          = errOf (makeRequestRunE c "post" "/v1/auth/login" []
              (some [("name", JsValue.str un), ("password", JsValue.str pw)]) outcome))
    ∧ errOf (resetPassword c noe outcome).2
      = errOf (makeRequestRunE c "post" "/v1/auth/reset" []
          (some [("nameOrEmail", jsOfOptStr noe)]) outcome)
    ∧ errOf (completeResetPassword c rt np regen outcome).2
      = errOf (makeRequestRunE c "post" "/v1/auth/reset/complete" []
          (some [("resetToken", JsValue.str rt), ("newPassword", JsValue.str np),
                 ("regenerateAccessToken", JsValue.bool regen)]) outcome)
    ∧ errOf (invalidateSession c outcome).2
      = errOf (makeRequestRunE c "get" "/v1/auth/invalidate" [] none outcome)
    ∧ (errOf (makeRequestRunE c "get" "/v1/auth/regenerate" [] none outcome) = none
        ∨ errOf (regenerateAccessToken c outcome).2
          = errOf (makeRequestRunE c "get" "/v1/auth/regenerate" [] none outcome))
    ∧ errOf (me c outcome).2
      = errOf (makeRequestRunE c "get" "/v1/me" [] none outcome)
    ∧ errOf (setDomain c dom outcome).2
      = errOf (makeRequestRunE c "post" "/v1/domain" []
          (some [("domain", JsValue.str dom)]) outcome)
    ∧ errOf (adminUsage c outcome).2
      = errOf (makeRequestRunE c "get" "/v1/admin/usage" [] none outcome)
    ∧ errOf (makeUser c un em outcome).2
      = errOf (makeRequestRunE c "post" "/v1/admin/mkuser" []
          (some [("name", JsValue.str un), ("email", JsValue.str em)]) outcome) := by
  refine ⟨?_, rfl, rfl, rfl, rfl, ?_, rfl, rfl, rfl, rfl, rfl, rfl, rfl, rfl, rfl,
    ?_, rfl, ?_, ?_, ?_, rfl, rfl, rfl, ?_⟩
  · cases h : makeRequestRunE c "get" "/v1/auth/check" [] none outcome <;>
      simp [checkAuth, h, errOf]
  · exact errOf_destructure_or _ "downloadToken"
  · cases h : makeRequestRunE c "post" "/v1/auth/login" []
        (some [("name", JsValue.str un), ("password", JsValue.str pw)]) outcome with
    | ok v => exact Or.inl rfl
    | error e => exact Or.inr (by simp [login, makeRequestCall, h, errOf])
  · exact errOf_map _ _
  · exact errOf_map _ _
  · exact errOf_destructure_or _ "newToken"
  · exact errOf_map _ _

/-- C7: the `forceMove` flag serialized into the bodies of `moveFile` and
`moveFolder` is `true` exactly when the caller's details record contains
the destination-parent key `parentId` at all — whatever its value,
including explicit `undefined` or `null` — and `false` when the key is
absent. -/
theorem forceMove_iff_parentId_present (c : PatClient) (sn fid : String)
    (dF : MoveFileDetails) (dD : MoveFolderDetails) (cp : Option Bool)
    (outcome : FetchOutcome) :
    (moveFile c sn dF cp outcome).1.bodyText
      = some (stringifyRecord (moveFileBody sn dF cp))
    ∧ lastField (moveFileBody sn dF cp) "forceMove"
      = some (JsValue.bool dF.parentId.isSome)
    ∧ (moveFolder c fid dD outcome).1.bodyText
      = some (stringifyRecord (moveFolderBody fid dD))
    ∧ lastField (moveFolderBody fid dD) "forceMove"
      = some (JsValue.bool dD.parentId.isSome) := by
  refine ⟨rfl, ?_, rfl, ?_⟩
  · rcases dF with ⟨o, pid⟩
    cases o <;> cases pid <;> rfl
  · rcases dD with ⟨n, pid⟩
    cases n <;> cases pid <;> rfl

/-- C8: the JSON primitive sets `Content-Type: application/json` exactly
when a body record was supplied, and the transmitted body is the
serialization of the supplied record — the serialized-undefined value
(`none`) when no body was supplied. -/
theorem content_type_iff_body (c : PatClient) (m p : String)
    (q : List (String × Option String)) (b : Option (List (String × JsValue))) :
    (makeRequestSent c m p q b).headers.filter (fun h => decide (h.1 = "Content-Type"))
      = (if b.isSome then [("Content-Type", "application/json")] else [])
    ∧ (makeRequestSent c m p q b).bodyText = b.map stringifyRecord := by
  constructor
  · cases ht : strTruthy c.token <;> cases b <;>
      simp [makeRequestSent, ht, List.filter_append]
  · rfl

/-- C9: the base endpoint is fixed at construction (defaulting to the
production endpoint), only `authenticate` touches the token, and neither
dispatch primitive changes the client state on any outcome — so the
instance stays usable after every success or failure. -/
theorem client_state_unchanged (c : PatClient) (u m p mu : String)
    (t : Option String) (q : List (String × Option String))
    (b : Option (List (String × JsValue))) (outcome : FetchOutcome)
    (env : JsEnv) (url : Url) (f : FileBlob) (uo : UploadOutcome) :
    (PatClient.make none).baseUrl = "https://pat.doggo.ninja"
    ∧ (PatClient.make none).token = none
    ∧ (PatClient.make (some u)).baseUrl = u
    ∧ (authenticate c t).baseUrl = c.baseUrl
    ∧ (authenticate c t).token = t
    ∧ (makeRequestSt c m p q b outcome).1 = c
    ∧ (makeUploadRequestSt c env mu url f uo).1 = c :=
  ⟨rfl, rfl, rfl, rfl, rfl, rfl, rfl⟩

/-- C10: calling `authenticate` with the empty string or with no argument
leaves the client unauthenticated — every JSON-primitive request it then
dispatches is identical to one from a never-authenticated client with the
same base endpoint, and carries no `Authorization` header. -/
theorem authenticate_falsy_unauthenticated (c : PatClient) (m p : String)
    (q : List (String × Option String)) (b : Option (List (String × JsValue))) :
    makeRequestSent (authenticate c (some "")) m p q b
      = makeRequestSent (PatClient.make (some c.baseUrl)) m p q b
    ∧ makeRequestSent (authenticate c none) m p q b
      = makeRequestSent (PatClient.make (some c.baseUrl)) m p q b
    ∧ "Authorization" ∉
        (makeRequestSent (authenticate c (some "")) m p q b).headers.map Prod.fst
    ∧ "Authorization" ∉
        (makeRequestSent (authenticate c none) m p q b).headers.map Prod.fst := by
  refine ⟨rfl, rfl, ?_, ?_⟩
  · cases b <;>
      simp [makeRequestSent, authenticate, strTruthy_empty]
  · cases b <;>
      simp [makeRequestSent, authenticate, strTruthy_none]

end DoggoJs
